import Mathlib

/-
Verification development for the SDL Asteroids game (src/main.c).

The simulation core of main.c is shallowly embedded below.  C `float`
arithmetic is idealised as exact rational arithmetic (ℚ); the external
library functions `cosf` and `sinf` (math.h) are uninterpreted parameters
`cosq sinq : ℚ → ℚ`; the C library `rand()` is modelled as a stream
`rnd : Nat → Nat` together with a cursor `rndIdx` recording how many draws
have been consumed, exactly mirroring the order in which main.c calls
`rand()`.  The distance test `hypotf(dx,dy) < r` is embedded exactly (over
exact reals, hypot(dx,dy) < r ↔ 0 < r ∧ dx²+dy² < r²) so that no square
roots are needed.  The rejection-sampling loop of setup_level is given an
explicit fuel bound; all theorems that depend on it carry a hypothesis
making the first candidate acceptable, which renders the fuel irrelevant.
-/

/-- SCREEN_WIDTH and SCREEN_HEIGHT from main.c. -/
def screenWidth : ℚ := 800

/-- Screen height constant of main.c. -/
def screenHeight : ℚ := 600

/-- The value of the C macro M_PI used by main.c, as an exact rational. -/
def mPI : ℚ := 3.14159265358979323846

/-- One axis of `wrap_coordinates` (main.c lines 252-257): the C code first
adds the width if the value is negative, then subtracts the width if the
(possibly updated) value is strictly greater than the width. -/
def wrap1 (v w : ℚ) : ℚ :=
  let v1 := if v < 0 then v + w else v
  if v1 > w then v1 - w else v1

/-- Embedding of `wrap_coordinates` from main.c. -/
def wrap_coordinates (x y : ℚ) : ℚ × ℚ :=
  (wrap1 x screenWidth, wrap1 y screenHeight)

/-- Exact embedding of the C test `hypotf dx dy < r`: since the Euclidean
norm is nonnegative, `hypot dx dy < r` holds iff `0 < r` and
`dx² + dy² < r²`. -/
def hypotLt (dx dy r : ℚ) : Bool :=
  decide (0 < r ∧ dx * dx + dy * dy < r * r)

/-- Uint32 subtraction `now - last` as performed by C on SDL_GetTicks
values (wraparound modulo 2^32). -/
def ticksDiff (now last : Nat) : Nat :=
  (now % 4294967296 + (4294967296 - last % 4294967296)) % 4294967296

/-- The Ship struct of main.c. -/
structure Ship where
  x : ℚ
  y : ℚ
  vx : ℚ
  vy : ℚ
  angle : ℚ
  alive : Bool
  invincibleTimer : Int
deriving DecidableEq

/-- The Bullet struct of main.c. -/
structure Bullet where
  x : ℚ
  y : ℚ
  vx : ℚ
  vy : ℚ
  lifetime : Int
  active : Bool
deriving DecidableEq

/-- The Asteroid struct of main.c (vertices stored flattened, as in C). -/
structure Asteroid where
  x : ℚ
  y : ℚ
  vx : ℚ
  vy : ℚ
  angle : ℚ
  rotationSpeed : ℚ
  size : Int
  numVertices : Nat
  vertices : List ℚ
  alive : Bool
deriving DecidableEq

/-- An all-zero inactive bullet, used as the out-of-range default of the
array read `g_bullets[j]` (never reached for in-range indices). -/
def deadB : Bullet :=
  { x := 0, y := 0, vx := 0, vy := 0, lifetime := 0, active := false }

/-- An all-zero dead asteroid, used as the out-of-range default of the
array read `g_asteroids[i]` (never reached for in-range indices). -/
def deadAst : Asteroid :=
  { x := 0, y := 0, vx := 0, vy := 0, angle := 0, rotationSpeed := 0,
    size := 0, numVertices := 0, vertices := [], alive := false }

instance : Inhabited Bullet := ⟨deadB⟩

instance : Inhabited Asteroid := ⟨deadAst⟩

/-- The global mutable state of main.c: ship, both entity pools,
score/lives/level/game-over, plus the modelled rand() stream and its
cursor. -/
structure GameState where
  ship : Ship
  bullets : List Bullet
  asteroids : List Asteroid
  score : Int
  lives : Int
  level : Int
  gameOver : Bool
  rnd : Nat → Nat
  rndIdx : Nat

/-- Array read `g_asteroids[i]`. -/
def astAt (l : List Asteroid) (i : Nat) : Asteroid := l.getD i deadAst

/-- Array read `g_bullets[j]`. -/
def bulAt (l : List Bullet) (j : Nat) : Bullet := l.getD j deadB

/-- Number of alive asteroids in the pool. -/
def aliveCount (l : List Asteroid) : Nat := l.countP (fun a => a.alive)

/-- Number of active bullets in the pool. -/
def activeCount (l : List Bullet) : Nat := l.countP (fun b => b.active)

/-- Index of the first free asteroid slot, scanning from 0 exactly like
the for loop of `spawn_asteroid`. -/
def firstFreeIdx : List Asteroid → Option Nat
  | [] => none
  | a :: as => if a.alive then (firstFreeIdx as).map (· + 1) else some 0

/-- The vertex array written by `spawn_asteroid` (main.c lines 197-202):
vertex j gets angle j/n·2π and radius `size*8 + rand() % (size*4)`. -/
def vertPairs (cosq sinq : ℚ → ℚ) (rnd : Nat → Nat) (k : Nat) (size : Int)
    (n : Nat) : List ℚ :=
  (List.range n).flatMap (fun j =>
    let angle : ℚ := (j : ℚ) / (n : ℚ) * 2 * mPI
    let radius : ℚ := ((size * 8 : Int) : ℚ) + ((rnd (k + j) % (size * 4).toNat : Nat) : ℚ)
    [radius * cosq angle, radius * sinq angle])

/-- The fresh asteroid record built inside `spawn_asteroid` once a free
slot is found, consuming rand() draws k, k+1, k+2, k+3 and then one draw
per vertex. -/
def newAsteroid (cosq sinq : ℚ → ℚ) (rnd : Nat → Nat) (k : Nat)
    (x y : ℚ) (size : Int) : Asteroid :=
  let nverts := 8 + rnd (k + 3) % 9
  { x := x, y := y,
    vx := (((rnd k % 200 : Nat) : ℚ) - 100) / 100,
    vy := (((rnd (k + 1) % 200 : Nat) : ℚ) - 100) / 100,
    angle := 0,
    rotationSpeed := (((rnd (k + 2) % 100 : Nat) : ℚ) - 50) / 50,
    size := size,
    numVertices := nverts,
    vertices := vertPairs cosq sinq rnd (k + 4) size nverts,
    alive := true }

/-- Embedding of `spawn_asteroid` (main.c lines 180-206): no-op for
size < 1, otherwise claims the first free pool slot (silent no-op when the
pool is full). -/
def spawn_asteroid (cosq sinq : ℚ → ℚ) (x y : ℚ) (size : Int)
    (s : GameState) : GameState :=
  if size < 1 then s
  else
    match firstFreeIdx s.asteroids with
    | none => s
    | some i =>
      let a := newAsteroid cosq sinq s.rnd s.rndIdx x y size
      { s with
        asteroids := s.asteroids.set i a,
        rndIdx := s.rndIdx + 4 + a.numVertices }

/-- The bullet record written by `fire_bullet` into the claimed slot
(SHIP_SIZE/2 = 10, BULLET_SPEED = 7, lifetime 60). -/
def newBullet (cosq sinq : ℚ → ℚ) (sh : Ship) : Bullet :=
  { x := sh.x + 10 * cosq (sh.angle * mPI / 180),
    y := sh.y + 10 * sinq (sh.angle * mPI / 180),
    vx := sh.vx + 7 * cosq (sh.angle * mPI / 180),
    vy := sh.vy + 7 * sinq (sh.angle * mPI / 180),
    lifetime := 60,
    active := true }

/-- The slot-claiming scan of `fire_bullet`: the first inactive slot is
overwritten with a fresh bullet, all later slots untouched. -/
def activateBullet (cosq sinq : ℚ → ℚ) (sh : Ship) : List Bullet → List Bullet
  | [] => []
  | b :: bs =>
    if b.active then b :: activateBullet cosq sinq sh bs
    else newBullet cosq sinq sh :: bs

/-- Embedding of `fire_bullet` (main.c lines 208-222): returns immediately
when the ship is not alive; otherwise claims the first free bullet slot
(silent no-op when the pool is full). -/
def fire_bullet (cosq sinq : ℚ → ℚ) (s : GameState) : GameState :=
  if s.ship.alive = false then s
  else { s with bullets := activateBullet cosq sinq s.ship s.bullets }

/-- Embedding of the fire-key branch of `handle_input` (main.c lines 229
and 243-249): the function returns early when the ship is dead; when SPACE
is held and strictly more than 200 ticks have elapsed since `last_shot`
(Uint32 arithmetic), `fire_bullet` is called and `last_shot` is updated to
the current tick count (even when `fire_bullet` creates no bullet). -/
def handle_input_fire (cosq sinq : ℚ → ℚ) (space : Bool) (now : Nat)
    (s : GameState) (last : Nat) : GameState × Nat :=
  if s.ship.alive = false then (s, last)
  else if space then
    if 200 < ticksDiff now last then (fire_bullet cosq sinq s, now)
    else (s, last)
  else (s, last)

/-- The ship state written by `setup_level` (main.c line 161): screen
center, zero velocity, heading -90 degrees, alive, invincibility 180. -/
def resetShip : Ship :=
  { x := 400, y := 300, vx := 0, vy := 0, angle := -90, alive := true,
    invincibleTimer := 180 }

/-- One iteration of the do-while body of `setup_level` (main.c lines
167-174), consuming three rand() draws and returning the candidate
position together with the new rand cursor.  SHIP_SIZE*4 = 80. -/
def levelCandidate (rnd : Nat → Nat) (k : Nat) : ℚ × ℚ × Nat :=
  if rnd k % 2 == 0 then
    ((if rnd (k + 1) % 2 == 0 then (0 : ℚ) - 80 else 800 + 80),
     ((rnd (k + 2) % 600 : Nat) : ℚ), k + 3)
  else
    (((rnd (k + 1) % 800 : Nat) : ℚ),
     (if rnd (k + 2) % 2 == 0 then (0 : ℚ) - 80 else 600 + 80), k + 3)

/-- The rejection-sampling loop of `setup_level`: candidates closer than
200 to the ship are discarded and retried.  The C loop has no bound; here
it is given explicit fuel, returning `none` when the fuel runs out. -/
def pickLevelPos (rnd : Nat → Nat) (sx sy : ℚ) : Nat → Nat → Option (ℚ × ℚ × Nat)
  | 0, _ => none
  | fuel + 1, k =>
    let c := levelCandidate rnd k
    if hypotLt (c.1 - sx) (c.2.1 - sy) 200 then pickLevelPos rnd sx sy fuel c.2.2
    else some c

/-- The spawn loop of `setup_level` (main.c lines 165-177): n times, pick
a position at least 200 from the ship and spawn a size-3 asteroid there.
When the fuel of the rejection loop is exhausted the spawn is skipped (a
modelling artifact never reached under the hypotheses used below). -/
def spawnLoop (cosq sinq : ℚ → ℚ) (fuel : Nat) : Nat → GameState → GameState
  | 0, s => s
  | n + 1, s =>
    match pickLevelPos s.rnd s.ship.x s.ship.y fuel s.rndIdx with
    | none => spawnLoop cosq sinq fuel n s
    | some c =>
      spawnLoop cosq sinq fuel n
        (spawn_asteroid cosq sinq c.1 c.2.1 3 { s with rndIdx := c.2.2 })

/-- The state after the reset part of `setup_level` (main.c lines
161-163): ship reset to center, every bullet and asteroid slot
deactivated. -/
def clearedState (s : GameState) : GameState :=
  { s with
    ship := resetShip,
    bullets := s.bullets.map (fun b => { b with active := false }),
    asteroids := s.asteroids.map (fun a => { a with alive := false }) }

/-- Embedding of `setup_level` (main.c lines 160-178): reset the ship,
deactivate every bullet and asteroid slot, then spawn `level + 3` size-3
asteroids at positions at least 200 units from the ship. -/
def setup_level (cosq sinq : ℚ → ℚ) (fuel : Nat) (s : GameState) : GameState :=
  spawnLoop cosq sinq fuel (s.level + 3).toNat (clearedState s)

/-- The per-tick ship update of `update_game` (main.c lines 261-270):
integrate position, apply friction 0.995, wrap, decrement the
invincibility timer if positive. -/
def updateShip (sh : Ship) : Ship :=
  if sh.alive then
    let p := wrap_coordinates (sh.x + sh.vx) (sh.y + sh.vy)
    { sh with
      x := p.1,
      y := p.2,
      vx := sh.vx * 0.995,
      vy := sh.vy * 0.995,
      invincibleTimer :=
        if 0 < sh.invincibleTimer then sh.invincibleTimer - 1
        else sh.invincibleTimer }
  else sh

/-- The per-tick bullet update of `update_game` (main.c lines 273-280):
integrate, wrap, pre-decrement lifetime and deactivate at 0 or below. -/
def updateBullet (b : Bullet) : Bullet :=
  if b.active then
    let p := wrap_coordinates (b.x + b.vx) (b.y + b.vy)
    { b with
      x := p.1,
      y := p.2,
      lifetime := b.lifetime - 1,
      active := if b.lifetime - 1 ≤ 0 then false else b.active }
  else b

/-- The kinematic part of an asteroid iteration (main.c lines 287-290). -/
def moveAsteroid (a : Asteroid) : Asteroid :=
  let p := wrap_coordinates (a.x + a.vx) (a.y + a.vy)
  { a with x := p.1, y := p.2, angle := a.angle + a.rotationSpeed }

/-- The inner bullet scan of the collision loop (main.c lines 293-296):
the first active bullet closer than size*10 to the asteroid, if any. -/
def firstHitIdx (a : Asteroid) : List Bullet → Option Nat
  | [] => none
  | b :: bs =>
    if b.active && hypotLt (b.x - a.x) (b.y - a.y) ((a.size * 10 : Int) : ℚ)
    then some 0
    else (firstHitIdx a bs).map (· + 1)

/-- The body of a registered bullet-asteroid hit (main.c lines 297-307).
Every occurrence of `g_asteroids[i]` in the C code re-reads the pool, so
after the first fragment spawn possibly recycles slot i, the second spawn
and the score read the recycled slot, exactly as the C does. -/
def applyHit (cosq sinq : ℚ → ℚ) (i j : Nat) (s : GameState) : GameState :=
  let s1 := { s with
    asteroids := s.asteroids.set i { astAt s.asteroids i with alive := false } }
  let s2 := { s1 with
    bullets := s1.bullets.set j { bulAt s1.bullets j with active := false } }
  let s3 :=
    if 1 < (astAt s2.asteroids i).size then
      let s4 := spawn_asteroid cosq sinq (astAt s2.asteroids i).x
        (astAt s2.asteroids i).y ((astAt s2.asteroids i).size - 1) s2
      spawn_asteroid cosq sinq (astAt s4.asteroids i).x
        (astAt s4.asteroids i).y ((astAt s4.asteroids i).size - 1) s4
    else s2
  { s3 with score := s3.score + (4 - (astAt s3.asteroids i).size) * 20 }

/-- The ship-asteroid collision test of the loop body (main.c lines
312-326), reading slot i of the current pool (which the bullet hit above
may have freed or recycled, exactly as in the C code): on a hit the ship
dies, a life is lost, and either game over is set or the ship respawns at
center with invincibility 180. -/
def shipCollide (i : Nat) (s : GameState) : GameState :=
  let a := astAt s.asteroids i
  if s.ship.alive = true ∧ s.ship.invincibleTimer ≤ 0 ∧
     hypotLt (s.ship.x - a.x) (s.ship.y - a.y) (((a.size * 8 : Int) : ℚ) + 10) = true
  then
    if s.lives - 1 ≤ 0 then
      { s with
        ship := { s.ship with alive := false },
        lives := s.lives - 1,
        gameOver := true }
    else
      { s with
        ship := { s.ship with
          x := 400, y := 300, vx := 0, vy := 0, angle := -90, alive := true,
          invincibleTimer := 180 },
        lives := s.lives - 1 }
  else s

/-- The movement and bullet-collision part of one asteroid iteration:
move the asteroid in its slot, then apply the first bullet hit, if any. -/
def hitPhase (cosq sinq : ℚ → ℚ) (i : Nat) (s : GameState) : GameState :=
  let a1 := moveAsteroid (astAt s.asteroids i)
  let s1 := { s with asteroids := s.asteroids.set i a1 }
  match firstHitIdx a1 s1.bullets with
  | some j => applyHit cosq sinq i j s1
  | none => s1

/-- One iteration of the asteroid loop of `update_game` (main.c lines
284-327), acting on the running state together with the alive counter. -/
def updateAsteroidStep (cosq sinq : ℚ → ℚ) (i : Nat)
    (sc : GameState × Nat) : GameState × Nat :=
  if (astAt sc.1.asteroids i).alive = true then
    (shipCollide i (hitPhase cosq sinq i sc.1), sc.2 + 1)
  else sc

/-- The asteroid loop, iterated over a list of slot indices. -/
def asteroidLoop (cosq sinq : ℚ → ℚ) :
    List Nat → GameState × Nat → GameState × Nat
  | [], sc => sc
  | i :: rest, sc =>
    asteroidLoop cosq sinq rest (updateAsteroidStep cosq sinq i sc)

/-- The ship and bullet kinematic phases of `update_game` (main.c lines
261-280), which precede the asteroid loop. -/
def preTick (s : GameState) : GameState :=
  { s with ship := updateShip s.ship, bullets := s.bullets.map updateBullet }

/-- The asteroid loop of `update_game` run over every pool slot, returning
the final state together with the alive-asteroid count of this tick. -/
def tickCore (cosq sinq : ℚ → ℚ) (s : GameState) : GameState × Nat :=
  asteroidLoop cosq sinq (List.range (preTick s).asteroids.length) (preTick s, 0)

/-- Embedding of `update_game` (main.c lines 259-333): ship kinematics,
bullet kinematics, the asteroid loop with collisions, then the
level-completion check (alive count zero and not game over advances the
level and reruns `setup_level`). -/
def update_game (cosq sinq : ℚ → ℚ) (fuel : Nat) (s : GameState) : GameState :=
  let r := tickCore cosq sinq s
  if r.2 = 0 ∧ r.1.gameOver = false then
    setup_level cosq sinq fuel { r.1 with level := r.1.level + 1 }
  else r.1

/-- The validity predicate of setup_level's rejection sampling, for the
candidate generated at rand-cursor k: the candidate is at least 200 units
from the just-reset ship position (400, 300). -/
def candOK (rnd : Nat → Nat) (k : Nat) : Prop :=
  hypotLt ((levelCandidate rnd k).1 - 400) ((levelCandidate rnd k).2.1 - 300) 200 = false

/-- The main loop of main.c (lines 109-114), abstracted over the body of
one iteration: the loop runs its body only while the game-over flag is
false. -/
def mainLoop (step : GameState → GameState) : Nat → GameState → GameState
  | 0, s => s
  | n + 1, s => if s.gameOver = true then s else mainLoop step n (step s)

/-- A stand-in for the uninterpreted trig functions in concrete scenarios
(their values never matter for the properties checked). -/
def czero : ℚ → ℚ := fun _ => 0

/-- A concrete rand() stream that always returns 0, used in concrete
scenarios. -/
def rzero : Nat → Nat := fun _ => 0

/-- Scenario: a lone size-3 asteroid in pool slot 0 at (600,400), a bullet
at the same position, the ship far away at (100,100); every other slot
free.  Used to exercise the bullet-hit branch of update_game when the
victim occupies the first free slot. -/
def stateA : GameState :=
  { ship := { x := 100, y := 100, vx := 0, vy := 0, angle := 0,
              alive := true, invincibleTimer := 0 },
    bullets :=
      { deadB with x := 600, y := 400, lifetime := 60, active := true }
        :: List.replicate 9 deadB,
    asteroids :=
      { deadAst with x := 600, y := 400, size := 3, alive := true }
        :: List.replicate 49 deadAst,
    score := 0, lives := 3, level := 1, gameOver := false,
    rnd := rzero, rndIdx := 0 }

/-- Scenario: as stateA but the victim asteroid has size 2. -/
def stateB : GameState :=
  { stateA with
    asteroids :=
      { deadAst with x := 600, y := 400, size := 2, alive := true }
        :: List.replicate 49 deadAst }

/-- Scenario: ship at center, alive, invincibility timer exactly 1, and a
size-3 asteroid sitting on the ship; no bullets. -/
def stateC : GameState :=
  { ship := { x := 400, y := 300, vx := 0, vy := 0, angle := -90,
              alive := true, invincibleTimer := 1 },
    bullets := List.replicate 10 deadB,
    asteroids :=
      { deadAst with x := 400, y := 300, size := 3, alive := true }
        :: List.replicate 49 deadAst,
    score := 0, lives := 3, level := 1, gameOver := false,
    rnd := rzero, rndIdx := 0 }

/-- Scenario: as stateC but with invincibility timer 2. -/
def stateC2 : GameState :=
  { stateC with
    ship := { stateC.ship with invincibleTimer := 2 } }

/-- Scenario: ship alive at center with no invincibility and an empty
bullet pool, used for the fire-cooldown analysis. -/
def stateD : GameState :=
  { ship := { x := 400, y := 300, vx := 0, vy := 0, angle := -90,
              alive := true, invincibleTimer := 0 },
    bullets := List.replicate 10 deadB,
    asteroids := List.replicate 50 deadAst,
    score := 0, lives := 3, level := 1, gameOver := false,
    rnd := rzero, rndIdx := 0 }

/-- Scenario: ship at center with no invincibility, one life left, and a
size-3 asteroid sitting on the ship: the next tick is lethal. -/
def stateE : GameState :=
  { ship := { x := 400, y := 300, vx := 0, vy := 0, angle := -90,
              alive := true, invincibleTimer := 0 },
    bullets := List.replicate 10 deadB,
    asteroids :=
      { deadAst with x := 400, y := 300, size := 3, alive := true }
        :: List.replicate 49 deadAst,
    score := 0, lives := 1, level := 1, gameOver := false,
    rnd := rzero, rndIdx := 0 }

/-- Scenario: empty pools at level 1, used to evaluate setup_level. -/
def stateW : GameState :=
  { ship := { x := 0, y := 0, vx := 0, vy := 0, angle := 0,
              alive := false, invincibleTimer := 0 },
    bullets := List.replicate 10 deadB,
    asteroids := List.replicate 50 deadAst,
    score := 0, lives := 3, level := 1, gameOver := false,
    rnd := rzero, rndIdx := 0 }

/-- Scenario: every asteroid slot alive and every bullet slot active, used
to exercise the pool-exhaustion no-ops. -/
def stateF : GameState :=
  { ship := { x := 400, y := 300, vx := 0, vy := 0, angle := -90,
              alive := true, invincibleTimer := 0 },
    bullets := List.replicate 10 { deadB with lifetime := 60, active := true },
    asteroids := List.replicate 50 { deadAst with x := 700, y := 500, size := 3, alive := true },
    score := 0, lives := 3, level := 1, gameOver := false,
    rnd := rzero, rndIdx := 0 }


/-- spawn_asteroid never changes the ship. -/
@[simp] theorem spawn_asteroid_ship (cosq sinq : ℚ → ℚ) (x y : ℚ) (sz : Int)
    (s : GameState) : (spawn_asteroid cosq sinq x y sz s).ship = s.ship := by
  unfold spawn_asteroid; split; · rfl
  split <;> rfl

/-- spawn_asteroid never changes the bullet pool. -/
@[simp] theorem spawn_asteroid_bullets (cosq sinq : ℚ → ℚ) (x y : ℚ) (sz : Int)
    (s : GameState) : (spawn_asteroid cosq sinq x y sz s).bullets = s.bullets := by
  unfold spawn_asteroid; split; · rfl
  split <;> rfl

/-- spawn_asteroid never changes the score. -/
@[simp] theorem spawn_asteroid_score (cosq sinq : ℚ → ℚ) (x y : ℚ) (sz : Int)
    (s : GameState) : (spawn_asteroid cosq sinq x y sz s).score = s.score := by
  unfold spawn_asteroid; split; · rfl
  split <;> rfl

/-- spawn_asteroid never changes the lives counter. -/
@[simp] theorem spawn_asteroid_lives (cosq sinq : ℚ → ℚ) (x y : ℚ) (sz : Int)
    (s : GameState) : (spawn_asteroid cosq sinq x y sz s).lives = s.lives := by
  unfold spawn_asteroid; split; · rfl
  split <;> rfl

/-- spawn_asteroid never changes the level counter. -/
@[simp] theorem spawn_asteroid_level (cosq sinq : ℚ → ℚ) (x y : ℚ) (sz : Int)
    (s : GameState) : (spawn_asteroid cosq sinq x y sz s).level = s.level := by
  unfold spawn_asteroid; split; · rfl
  split <;> rfl

/-- spawn_asteroid never changes the game-over flag. -/
@[simp] theorem spawn_asteroid_gameOver (cosq sinq : ℚ → ℚ) (x y : ℚ) (sz : Int)
    (s : GameState) : (spawn_asteroid cosq sinq x y sz s).gameOver = s.gameOver := by
  unfold spawn_asteroid; split; · rfl
  split <;> rfl

/-- spawn_asteroid never changes the rand stream function. -/
@[simp] theorem spawn_asteroid_rnd (cosq sinq : ℚ → ℚ) (x y : ℚ) (sz : Int)
    (s : GameState) : (spawn_asteroid cosq sinq x y sz s).rnd = s.rnd := by
  unfold spawn_asteroid; split; · rfl
  split <;> rfl

/-- spawn_asteroid preserves the asteroid-pool length. -/
@[simp] theorem spawn_asteroid_length (cosq sinq : ℚ → ℚ) (x y : ℚ) (sz : Int)
    (s : GameState) :
    (spawn_asteroid cosq sinq x y sz s).asteroids.length = s.asteroids.length := by
  unfold spawn_asteroid; split; · rfl
  split; · rfl
  exact List.length_set ..

/-- applyHit changes only the pools, the score and the rand cursor. -/
theorem applyHit_fields (cosq sinq : ℚ → ℚ) (i j : Nat) (s : GameState) :
    (applyHit cosq sinq i j s).ship = s.ship ∧
    (applyHit cosq sinq i j s).lives = s.lives ∧
    (applyHit cosq sinq i j s).level = s.level ∧
    (applyHit cosq sinq i j s).gameOver = s.gameOver ∧
    (applyHit cosq sinq i j s).rnd = s.rnd ∧
    (applyHit cosq sinq i j s).asteroids.length = s.asteroids.length := by
  unfold applyHit
  dsimp only
  split <;> simp [List.length_set]

/-- shipCollide changes only the ship, the lives counter and the game-over
flag. -/
theorem shipCollide_fields (i : Nat) (s : GameState) :
    (shipCollide i s).asteroids = s.asteroids ∧
    (shipCollide i s).bullets = s.bullets ∧
    (shipCollide i s).score = s.score ∧
    (shipCollide i s).level = s.level ∧
    (shipCollide i s).rnd = s.rnd ∧
    (shipCollide i s).rndIdx = s.rndIdx := by
  unfold shipCollide
  dsimp only
  split <;> [split <;> exact ⟨rfl, rfl, rfl, rfl, rfl, rfl⟩;
             exact ⟨rfl, rfl, rfl, rfl, rfl, rfl⟩]

/-- Case analysis for shipCollide: either nothing happens, or the guard
held (ship alive and vulnerable) and either the lethal or the respawn
branch was taken. -/
theorem shipCollide_cases (i : Nat) (s : GameState) :
    shipCollide i s = s ∨
    (s.ship.alive = true ∧ s.ship.invincibleTimer ≤ 0 ∧
     ((s.lives - 1 ≤ 0 ∧
       shipCollide i s = { s with
         ship := { s.ship with alive := false },
         lives := s.lives - 1,
         gameOver := true }) ∨
      (¬(s.lives - 1 ≤ 0) ∧
       shipCollide i s = { s with
         ship := { s.ship with
           x := 400, y := 300, vx := 0, vy := 0, angle := -90, alive := true,
           invincibleTimer := 180 },
         lives := s.lives - 1 }))) := by
  unfold shipCollide
  dsimp only
  split
  case isTrue h =>
    refine Or.inr ⟨h.1, h.2.1, ?_⟩
    split
    case isTrue h2 => exact Or.inl ⟨h2, rfl⟩
    case isFalse h2 => exact Or.inr ⟨h2, rfl⟩
  case isFalse h => exact Or.inl rfl

/-- hitPhase changes only the pools, the score and the rand cursor. -/
theorem hitPhase_fields (cosq sinq : ℚ → ℚ) (i : Nat) (s : GameState) :
    (hitPhase cosq sinq i s).ship = s.ship ∧
    (hitPhase cosq sinq i s).lives = s.lives ∧
    (hitPhase cosq sinq i s).level = s.level ∧
    (hitPhase cosq sinq i s).gameOver = s.gameOver ∧
    (hitPhase cosq sinq i s).rnd = s.rnd ∧
    (hitPhase cosq sinq i s).asteroids.length = s.asteroids.length := by
  unfold hitPhase
  dsimp only
  split
  next j heq =>
    have h := applyHit_fields cosq sinq i j
      { s with asteroids := s.asteroids.set i (moveAsteroid (astAt s.asteroids i)) }
    simpa [List.length_set] using h
  next heq => simp [List.length_set]

/-- Any property of the running state preserved by one asteroid iteration
is preserved by the whole asteroid loop. -/
theorem asteroidLoop_inv (cosq sinq : ℚ → ℚ) (P : GameState → Prop)
    (hstep : ∀ i sc, P sc.1 → P (updateAsteroidStep cosq sinq i sc).1) :
    ∀ (l : List Nat) (sc : GameState × Nat),
      P sc.1 → P (asteroidLoop cosq sinq l sc).1 := by
  intro l
  induction l with
  | nil => intro sc h; exact h
  | cons i rest ih => intro sc h; exact ih _ (hstep i sc h)

/-- updateShip never changes the alive flag. -/
theorem updateShip_alive (sh : Ship) : (updateShip sh).alive = sh.alive := by
  unfold updateShip; split <;> rfl

/-- After the per-tick decrement, a ship that entered the tick with timer
at least 2 still has a positive timer. -/
theorem updateShip_timer_pos (sh : Ship) (h : 1 < sh.invincibleTimer) :
    0 < (updateShip sh).invincibleTimer := by
  unfold updateShip
  split
  · dsimp only
    split <;> omega
  · omega

/-- spawnLoop changes only the asteroid pool and the rand cursor. -/
theorem spawnLoop_fields (cosq sinq : ℚ → ℚ) (fuel : Nat) :
    ∀ (n : Nat) (s : GameState),
      (spawnLoop cosq sinq fuel n s).ship = s.ship ∧
      (spawnLoop cosq sinq fuel n s).bullets = s.bullets ∧
      (spawnLoop cosq sinq fuel n s).score = s.score ∧
      (spawnLoop cosq sinq fuel n s).lives = s.lives ∧
      (spawnLoop cosq sinq fuel n s).level = s.level ∧
      (spawnLoop cosq sinq fuel n s).gameOver = s.gameOver := by
  intro n
  induction n with
  | zero => intro s; exact ⟨rfl, rfl, rfl, rfl, rfl, rfl⟩
  | succ m ih =>
    intro s
    unfold spawnLoop
    split
    · exact ih s
    next c heq =>
      have h2 := ih (spawn_asteroid cosq sinq c.1 c.2.1 3 { s with rndIdx := c.2.2 })
      simpa using h2

/-- setup_level resets the ship and preserves score, lives, level and the
game-over flag. -/
theorem setup_level_fields (cosq sinq : ℚ → ℚ) (fuel : Nat) (s : GameState) :
    (setup_level cosq sinq fuel s).ship = resetShip ∧
    (setup_level cosq sinq fuel s).score = s.score ∧
    (setup_level cosq sinq fuel s).lives = s.lives ∧
    (setup_level cosq sinq fuel s).level = s.level ∧
    (setup_level cosq sinq fuel s).gameOver = s.gameOver := by
  unfold setup_level
  have h := spawnLoop_fields cosq sinq fuel (s.level + 3).toNat (clearedState s)
  exact ⟨h.1, h.2.2.1, h.2.2.2.1, h.2.2.2.2.1, h.2.2.2.2.2⟩

/-- If every bullet slot is active, the fire scan changes nothing. -/
theorem activateBullet_full (cosq sinq : ℚ → ℚ) (sh : Ship) :
    ∀ l : List Bullet, (∀ b ∈ l, b.active = true) →
      activateBullet cosq sinq sh l = l := by
  intro l
  induction l with
  | nil => intro _; rfl
  | cons b bs ih =>
    intro h
    unfold activateBullet
    rw [if_pos (h b (List.mem_cons_self b bs)), ih (fun c hc => h c (List.mem_cons_of_mem b hc))]

/-- If some bullet slot is free, the fire scan activates exactly one
fresh bullet with lifetime 60. -/
theorem activateBullet_free (cosq sinq : ℚ → ℚ) (sh : Ship) :
    ∀ l : List Bullet, (∃ b ∈ l, b.active = false) →
      activeCount (activateBullet cosq sinq sh l) = activeCount l + 1 ∧
      newBullet cosq sinq sh ∈ activateBullet cosq sinq sh l := by
  intro l
  induction l with
  | nil => rintro ⟨b, hb, -⟩; exact absurd hb (List.not_mem_nil b)
  | cons b bs ih =>
    rintro ⟨c, hc, hcf⟩
    unfold activateBullet
    by_cases hb : b.active
    · rw [if_pos hb]
      have hcbs : c ∈ bs := by
        rcases List.mem_cons.mp hc with h | h
        · rw [h] at hcf; rw [hcf] at hb; exact absurd hb (by simp)
        · exact h
      obtain ⟨h1, h2⟩ := ih ⟨c, hcbs, hcf⟩
      constructor
      · simp only [activeCount, List.countP_cons, hb] at h1 ⊢
        simp only [h1, hb]
        omega
      · exact List.mem_cons_of_mem b h2
    · rw [if_neg hb]
      constructor
      · simp only [activeCount, List.countP_cons]
        have hb' : b.active = false := by simpa using hb
        simp [hb', newBullet]
      · exact List.mem_cons_self ..

/-- If every asteroid slot is alive, the spawn scan finds no free slot. -/
theorem firstFreeIdx_full :
    ∀ l : List Asteroid, (∀ a ∈ l, a.alive = true) → firstFreeIdx l = none := by
  intro l
  induction l with
  | nil => intro _; rfl
  | cons a as ih =>
    intro h
    unfold firstFreeIdx
    rw [if_pos (by simpa using h a (List.mem_cons_self a as)),
        ih (fun c hc => h c (List.mem_cons_of_mem a hc))]
    rfl

/-- If not every slot is alive, the spawn scan finds a free in-range slot
holding a dead asteroid. -/
theorem firstFreeIdx_of_count :
    ∀ l : List Asteroid, aliveCount l < l.length →
      ∃ i, firstFreeIdx l = some i ∧ i < l.length ∧ (astAt l i).alive = false := by
  intro l
  induction l with
  | nil => intro h; exact absurd h (by simp [aliveCount])
  | cons a as ih =>
    intro h
    by_cases ha : a.alive
    · have hlt : aliveCount as < as.length := by
        have h' : aliveCount as + 1 < as.length + 1 := by
          simpa [aliveCount, List.countP_cons, ha] using h
        omega
      obtain ⟨i, h1, h2, h3⟩ := ih hlt
      refine ⟨i + 1, ?_, by simpa using h2, ?_⟩
      · unfold firstFreeIdx
        rw [if_pos ha, h1]
        rfl
      · simpa [astAt, List.getD_cons_succ] using h3
    · refine ⟨0, ?_, by simp, ?_⟩
      · unfold firstFreeIdx
        rw [if_neg ha]
      · simpa [astAt] using ha

/-- Setting a dead slot to an alive asteroid increments the alive count. -/
theorem aliveCount_set :
    ∀ (l : List Asteroid) (i : Nat), i < l.length →
      (astAt l i).alive = false → ∀ a : Asteroid, a.alive = true →
      aliveCount (l.set i a) = aliveCount l + 1 := by
  intro l
  induction l with
  | nil => intro i h; exact absurd h (by simp)
  | cons b bs ih =>
    intro i hi hdead a halive
    cases i with
    | zero =>
      have hb : b.alive = false := by simpa [astAt] using hdead
      simp [aliveCount, List.countP_cons, hb, halive]
    | succ m =>
      have hm : m < bs.length := by simpa using hi
      have hdead' : (astAt bs m).alive = false := by
        simpa [astAt, List.getD_cons_succ] using hdead
      have := ih m hm hdead' a halive
      simp only [List.set_cons_succ, aliveCount, List.countP_cons] at this ⊢
      omega

/-- Range of the single-axis wrap: a value within one width of the screen
ends up in the closed interval [0, w]. -/
theorem wrap1_range (v w : ℚ) (h1 : -w ≤ v) (h2 : v ≤ 2 * w) :
    0 ≤ wrap1 v w ∧ wrap1 v w ≤ w := by
  unfold wrap1
  dsimp only
  split
  next hv =>
    split
    next hgt => constructor <;> linarith
    next hgt => constructor <;> linarith
  next hv =>
    split
    next hgt => constructor <;> linarith
    next hgt => constructor <;> linarith

/-- C1 (counterexample): a coordinate exactly at the screen boundary is
NOT wrapped: wrap_coordinates maps (800, 600) to (800, 600), not to
(0, 0), because the C comparisons are strict; in particular the result
does not lie in [0,800) × [0,600). -/
theorem wrap_coordinates_keeps_boundary :
    (wrap_coordinates 800 600).1 = 800 ∧ (wrap_coordinates 800 600).2 = 600 ∧
    ¬((wrap_coordinates 800 600).1 < 800 ∧ (wrap_coordinates 800 600).2 < 600) :=
  ⟨by with_unfolding_all rfl, by with_unfolding_all rfl,
   by with_unfolding_all decide⟩

/-- C1 (amended): for input positions within one screen width/height of
the valid range, the result of wrap_coordinates lies in the CLOSED box
[0,800] × [0,600]; a value just below the lower boundary wraps
(x = -1 ↦ 799, y = -1 ↦ 599) but a value exactly at the upper boundary is
left in place (x = 800 ↦ 800): only values strictly greater than the
width/height are wrapped. -/
theorem wrap_coordinates_closed_range (x y : ℚ)
    (hx1 : -800 ≤ x) (hx2 : x ≤ 1600) (hy1 : -600 ≤ y) (hy2 : y ≤ 1200) :
    0 ≤ (wrap_coordinates x y).1 ∧ (wrap_coordinates x y).1 ≤ 800 ∧
    0 ≤ (wrap_coordinates x y).2 ∧ (wrap_coordinates x y).2 ≤ 600 ∧
    (wrap_coordinates (-1) (-1)).1 = 799 ∧ (wrap_coordinates (-1) (-1)).2 = 599 ∧
    (wrap_coordinates 800 600).1 = 800 := by
  have hx := wrap1_range x 800 (by linarith) (by linarith)
  have hy := wrap1_range y 600 (by linarith) (by linarith)
  exact ⟨hx.1, hx.2, hy.1, hy.2, by with_unfolding_all rfl,
         by with_unfolding_all rfl, by with_unfolding_all rfl⟩

/-- Witness for the amended C1 at the concrete input (-5, 601). -/
theorem wrap_coordinates_closed_range_check :
    (-800 : ℚ) ≤ -5 ∧ (-5 : ℚ) ≤ 1600 ∧ (-600 : ℚ) ≤ 601 ∧ (601 : ℚ) ≤ 1200 ∧
    (0 ≤ (wrap_coordinates (-5) 601).1 ∧ (wrap_coordinates (-5) 601).1 ≤ 800 ∧
     0 ≤ (wrap_coordinates (-5) 601).2 ∧ (wrap_coordinates (-5) 601).2 ≤ 600 ∧
     (wrap_coordinates (-1) (-1)).1 = 799 ∧ (wrap_coordinates (-1) (-1)).2 = 599 ∧
     (wrap_coordinates 800 600).1 = 800) :=
  ⟨by norm_num, by norm_num, by norm_num, by norm_num,
   wrap_coordinates_closed_range (-5) 601 (by norm_num) (by norm_num)
     (by norm_num) (by norm_num)⟩

set_option maxRecDepth 8000 in
/-- C2 (code divergence): in stateA a size-3 asteroid in slot 0 (the only
alive asteroid, so its own slot is the first free slot after the kill) is
destroyed by a bullet, yet the score increases by 40, not by
(4 - 3) * 20 = 20: the first fragment recycles the victim's slot and the
score is then computed from the recycled slot's size 2. -/
theorem update_game_score_on_recycled_slot :
    (astAt stateA.asteroids 0).size = 3 ∧
    (astAt stateA.asteroids 0).alive = true ∧
    (update_game czero czero 1 stateA).score = stateA.score + 40 :=
  ⟨by with_unfolding_all rfl, by with_unfolding_all rfl,
   by with_unfolding_all rfl⟩

set_option maxRecDepth 8000 in
/-- C3 (code divergence): in stateB a size-2 asteroid in slot 0 (49 free
slots available) is destroyed by a bullet, yet only ONE child is created,
of size 1: the first size-1 fragment recycles the victim's slot, so the
second spawn call reads size 1 - 1 = 0 and is dropped by the size < 1
guard. -/
theorem update_game_fragments_on_recycled_slot :
    (astAt stateB.asteroids 0).size = 2 ∧
    aliveCount stateB.asteroids = 1 ∧
    aliveCount (update_game czero czero 1 stateB).asteroids = 1 ∧
    (astAt (update_game czero czero 1 stateB).asteroids 0).size = 1 :=
  ⟨by with_unfolding_all rfl, by with_unfolding_all rfl,
   by with_unfolding_all rfl, by with_unfolding_all rfl⟩

set_option maxRecDepth 8000 in
/-- C5 (counterexample): a ship entering the tick alive with invincibility
timer exactly 1 is NOT protected: the timer is decremented to 0 by the
ship-update phase before the collision check runs, so the overlapping
asteroid costs a life in the same tick. -/
theorem invincibility_timer_one_not_safe :
    stateC.ship.alive = true ∧ stateC.ship.invincibleTimer = 1 ∧
    stateC.lives = 3 ∧ (update_game czero czero 1 stateC).lives = 2 :=
  ⟨rfl, rfl, rfl, by with_unfolding_all rfl⟩

/-- C7 (counterexample): a fire request arriving exactly 200 ticks after
the last recorded shot is NOT honored (the C gate is strictly greater
than 200): with the ship alive and the whole bullet pool free, no bullet
is created and the timestamp is not updated. -/
theorem fire_request_at_exactly_200_dropped :
    stateD.ship.alive = true ∧ ticksDiff 200 0 = 200 ∧
    activeCount stateD.bullets = 0 ∧
    handle_input_fire czero czero true 200 stateD 0 = (stateD, 0) :=
  ⟨rfl, by decide, by with_unfolding_all rfl, by with_unfolding_all rfl⟩

/-- C9: fire_bullet is a no-op when the ship is not alive: the entire
game state is returned unchanged. -/
theorem fire_bullet_dead_ship_noop (cosq sinq : ℚ → ℚ) (s : GameState)
    (h : s.ship.alive = false) : fire_bullet cosq sinq s = s := by
  unfold fire_bullet
  rw [if_pos h]

/-- Witness for C9 at the concrete state stateW (whose ship is dead). -/
theorem fire_bullet_dead_ship_noop_check :
    stateW.ship.alive = false ∧ fire_bullet czero czero stateW = stateW :=
  ⟨rfl, fire_bullet_dead_ship_noop czero czero stateW rfl⟩

/-- C4: the alive/active counts are bounded by the pool capacities;
spawning into a full 50-slot asteroid pool, firing into a full 10-slot
bullet pool, and spawning with size < 1 are all exact no-ops (the whole
state is returned unchanged, with no error). -/
theorem pool_capacity_invariant (cosq sinq : ℚ → ℚ) (s t : GameState)
    (x y : ℚ) (sz : Int)
    (hA : ∀ a ∈ s.asteroids, a.alive = true)
    (hB : ∀ b ∈ s.bullets, b.active = true)
    (hlenA : s.asteroids.length = 50)
    (hlenB : s.bullets.length = 10)
    (hsz : sz < 1) :
    aliveCount s.asteroids ≤ 50 ∧
    activeCount s.bullets ≤ 10 ∧
    spawn_asteroid cosq sinq x y 3 s = s ∧
    fire_bullet cosq sinq s = s ∧
    spawn_asteroid cosq sinq x y sz t = t := by
  refine ⟨?_, ?_, ?_, ?_, ?_⟩
  · rw [← hlenA]; exact List.countP_le_length _
  · rw [← hlenB]; exact List.countP_le_length _
  · unfold spawn_asteroid
    rw [if_neg (by omega), firstFreeIdx_full s.asteroids hA]
  · unfold fire_bullet
    split
    · rfl
    · rw [activateBullet_full cosq sinq s.ship s.bullets hB]
  · unfold spawn_asteroid
    rw [if_pos hsz]

/-- Witness for C4: the full state stateF and the arbitrary state stateW,
with degenerate spawn size 0. -/
theorem pool_capacity_invariant_check :
    (∀ a ∈ stateF.asteroids, a.alive = true) ∧
    (∀ b ∈ stateF.bullets, b.active = true) ∧
    stateF.asteroids.length = 50 ∧ stateF.bullets.length = 10 ∧ (0 : Int) < 1 ∧
    (aliveCount stateF.asteroids ≤ 50 ∧
     activeCount stateF.bullets ≤ 10 ∧
     spawn_asteroid czero czero 0 0 3 stateF = stateF ∧
     fire_bullet czero czero stateF = stateF ∧
     spawn_asteroid czero czero 0 0 0 stateW = stateW) :=
  ⟨by decide, by decide, by decide, by decide, by decide,
   pool_capacity_invariant czero czero stateF stateW 0 0 0
     (by decide) (by decide) (by decide) (by decide) (by decide)⟩

/-- C7 (amended): a fire request is honored iff STRICTLY more than 200
ticks have elapsed (Uint32 difference) since the last recorded request
that passed the gate; an honored request with the ship alive and a free
slot creates exactly one fresh bullet (lifetime 60) and records the
current time, and a second request within 200 ticks of it changes
nothing. -/
theorem fire_cooldown_strict (cosq sinq : ℚ → ℚ) (s : GameState)
    (now1 now2 last : Nat)
    (halive : s.ship.alive = true)
    (hfree : ∃ b ∈ s.bullets, b.active = false)
    (hgap : 200 < ticksDiff now1 last)
    (hsoon : ticksDiff now2 now1 ≤ 200) :
    activeCount (handle_input_fire cosq sinq true now1 s last).1.bullets
      = activeCount s.bullets + 1 ∧
    newBullet cosq sinq s.ship ∈ (handle_input_fire cosq sinq true now1 s last).1.bullets ∧
    (handle_input_fire cosq sinq true now1 s last).2 = now1 ∧
    handle_input_fire cosq sinq true now2
        (handle_input_fire cosq sinq true now1 s last).1 now1
      = ((handle_input_fire cosq sinq true now1 s last).1, now1) := by
  have hal : ¬s.ship.alive = false := by simp [halive]
  have e1 : handle_input_fire cosq sinq true now1 s last
      = (fire_bullet cosq sinq s, now1) := by
    unfold handle_input_fire
    rw [if_neg hal, if_pos rfl, if_pos hgap]
  have e2 : fire_bullet cosq sinq s
      = { s with bullets := activateBullet cosq sinq s.ship s.bullets } := by
    unfold fire_bullet
    rw [if_neg hal]
  obtain ⟨hc, hm⟩ := activateBullet_free cosq sinq s.ship s.bullets hfree
  refine ⟨?_, ?_, ?_, ?_⟩
  · rw [e1]; dsimp only; rw [e2]; exact hc
  · rw [e1]; dsimp only; rw [e2]; exact hm
  · rw [e1]
  · rw [e1]
    dsimp only
    unfold handle_input_fire
    split
    · rfl
    · rw [if_pos rfl, if_neg (by omega)]

/-- Witness for the amended C7: first request 300 ticks after time 0,
second request 100 ticks later, on the empty-pool state stateD. -/
theorem fire_cooldown_strict_check :
    stateD.ship.alive = true ∧ 200 < ticksDiff 300 0 ∧ ticksDiff 400 300 ≤ 200 ∧
    (activeCount (handle_input_fire czero czero true 300 stateD 0).1.bullets
       = activeCount stateD.bullets + 1 ∧
     newBullet czero czero stateD.ship ∈ (handle_input_fire czero czero true 300 stateD 0).1.bullets ∧
     (handle_input_fire czero czero true 300 stateD 0).2 = 300 ∧
     handle_input_fire czero czero true 400
         (handle_input_fire czero czero true 300 stateD 0).1 300
       = ((handle_input_fire czero czero true 300 stateD 0).1, 300)) :=
  ⟨rfl, by decide, by decide,
   fire_cooldown_strict czero czero stateD 300 400 0 rfl
     ⟨deadB, by decide, rfl⟩ (by decide) (by decide)⟩

/-- Once the game-over flag is set, the main loop performs no further
iterations, for any loop body. -/
theorem mainLoop_gameOver (step : GameState → GameState) (u : GameState)
    (h : u.gameOver = true) : ∀ n, mainLoop step n u = u := by
  intro n
  cases n with
  | zero => rfl
  | succ m =>
    unfold mainLoop
    rw [if_pos h]

/-- C5 (amended): a ship that enters the tick alive with invincibility
timer at least 2 (so that the timer is still positive after the per-tick
decrement that precedes the collision checks) registers no ship-asteroid
collision during update_game: it ends the tick alive and the lives
counter is unchanged, regardless of asteroid positions. -/
theorem invincible_ship_immune (cosq sinq : ℚ → ℚ) (fuel : Nat) (s : GameState)
    (ha : s.ship.alive = true) (ht : 1 < s.ship.invincibleTimer) :
    (update_game cosq sinq fuel s).ship.alive = true ∧
    (update_game cosq sinq fuel s).lives = s.lives := by
  have hstep : ∀ (i : Nat) (sc : GameState × Nat),
      (sc.1.ship.alive = true ∧ 0 < sc.1.ship.invincibleTimer ∧ sc.1.lives = s.lives) →
      ((updateAsteroidStep cosq sinq i sc).1.ship.alive = true ∧
       0 < (updateAsteroidStep cosq sinq i sc).1.ship.invincibleTimer ∧
       (updateAsteroidStep cosq sinq i sc).1.lives = s.lives) := by
    intro i sc h
    obtain ⟨h1, h2, h3⟩ := h
    unfold updateAsteroidStep
    split
    · dsimp only
      obtain ⟨hp1, hp2, -, -, -, -⟩ := hitPhase_fields cosq sinq i sc.1
      rcases shipCollide_cases i (hitPhase cosq sinq i sc.1) with heq | ⟨-, htimer, -⟩
      · rw [heq, hp1, hp2]
        exact ⟨h1, h2, h3⟩
      · exfalso
        rw [hp1] at htimer
        omega
    · exact ⟨h1, h2, h3⟩
  have hpre : (preTick s).ship.alive = true ∧ 0 < (preTick s).ship.invincibleTimer ∧
      (preTick s).lives = s.lives := by
    refine ⟨?_, ?_, rfl⟩
    · show (updateShip s.ship).alive = true
      rw [updateShip_alive, ha]
    · exact updateShip_timer_pos s.ship ht
  have hr : (tickCore cosq sinq s).1.ship.alive = true ∧
      0 < (tickCore cosq sinq s).1.ship.invincibleTimer ∧
      (tickCore cosq sinq s).1.lives = s.lives :=
    asteroidLoop_inv cosq sinq
      (fun u => u.ship.alive = true ∧ 0 < u.ship.invincibleTimer ∧ u.lives = s.lives)
      hstep (List.range (preTick s).asteroids.length) (preTick s, 0) hpre
  by_cases hc : (tickCore cosq sinq s).2 = 0 ∧ (tickCore cosq sinq s).1.gameOver = false
  · have he : update_game cosq sinq fuel s = setup_level cosq sinq fuel
        { (tickCore cosq sinq s).1 with level := (tickCore cosq sinq s).1.level + 1 } := by
      unfold update_game
      rw [if_pos hc]
    rw [he]
    have hs := setup_level_fields cosq sinq fuel
      { (tickCore cosq sinq s).1 with level := (tickCore cosq sinq s).1.level + 1 }
    constructor
    · rw [hs.1]
      rfl
    · rw [hs.2.2.1]
      exact hr.2.2
  · have he : update_game cosq sinq fuel s = (tickCore cosq sinq s).1 := by
      unfold update_game
      rw [if_neg hc]
    rw [he]
    exact ⟨hr.1, hr.2.2⟩

/-- Witness for the amended C5: the state stateC2 (timer 2, asteroid on
top of the ship) loses no life. -/
theorem invincible_ship_immune_check :
    stateC2.ship.alive = true ∧ 1 < stateC2.ship.invincibleTimer ∧
    ((update_game czero czero 1 stateC2).ship.alive = true ∧
     (update_game czero czero 1 stateC2).lives = stateC2.lives) :=
  ⟨rfl, by decide, invincible_ship_immune czero czero 1 stateC2 rfl (by decide)⟩

/-- C6: if a tick flips the game-over flag from false to true, then in
the resulting state the ship is dead (not respawned), the lives counter
is 0 or below, the level counter is unchanged (so setup_level was not
invoked by the level-completion branch, which is guarded by the game-over
flag), and the main loop performs no further iterations. -/
theorem game_over_is_terminal (cosq sinq : ℚ → ℚ) (fuel : Nat) (s : GameState)
    (h0 : s.gameOver = false)
    (h1 : (update_game cosq sinq fuel s).gameOver = true) :
    (update_game cosq sinq fuel s).ship.alive = false ∧
    (update_game cosq sinq fuel s).lives ≤ 0 ∧
    (update_game cosq sinq fuel s).level = s.level ∧
    ∀ (step : GameState → GameState) (n : Nat),
      mainLoop step n (update_game cosq sinq fuel s) = update_game cosq sinq fuel s := by
  have hstep : ∀ (i : Nat) (sc : GameState × Nat),
      (sc.1.level = s.level ∧
       (sc.1.gameOver = true → sc.1.ship.alive = false ∧ sc.1.lives ≤ 0)) →
      ((updateAsteroidStep cosq sinq i sc).1.level = s.level ∧
       ((updateAsteroidStep cosq sinq i sc).1.gameOver = true →
        (updateAsteroidStep cosq sinq i sc).1.ship.alive = false ∧
        (updateAsteroidStep cosq sinq i sc).1.lives ≤ 0)) := by
    intro i sc h
    obtain ⟨hl, hq⟩ := h
    unfold updateAsteroidStep
    split
    · dsimp only
      obtain ⟨hp1, hp2, hp3, hp4, -, -⟩ := hitPhase_fields cosq sinq i sc.1
      rcases shipCollide_cases i (hitPhase cosq sinq i sc.1) with heq |
        ⟨halive, htimer, ⟨hl0, heq⟩ | ⟨hl0, heq⟩⟩
      · rw [heq]
        refine ⟨by rw [hp3, hl], ?_⟩
        intro hgo
        rw [hp4] at hgo
        obtain ⟨hd, hlv⟩ := hq hgo
        exact ⟨by rw [hp1, hd], by rw [hp2]; exact hlv⟩
      · rw [heq]
        refine ⟨by rw [hp3, hl], ?_⟩
        intro _
        exact ⟨rfl, hl0⟩
      · rw [heq]
        refine ⟨by rw [hp3, hl], ?_⟩
        intro hgo
        have hgo2 : sc.1.gameOver = true := by rw [← hp4]; exact hgo
        obtain ⟨hd, -⟩ := hq hgo2
        rw [hp1] at halive
        rw [halive] at hd
        simp at hd
    · exact ⟨hl, hq⟩
  have hpre : (preTick s).level = s.level ∧
      ((preTick s).gameOver = true → (preTick s).ship.alive = false ∧
       (preTick s).lives ≤ 0) := by
    refine ⟨rfl, ?_⟩
    intro h
    have h2 : s.gameOver = true := h
    rw [h0] at h2
    cases h2
  have hr : (tickCore cosq sinq s).1.level = s.level ∧
      ((tickCore cosq sinq s).1.gameOver = true →
       (tickCore cosq sinq s).1.ship.alive = false ∧
       (tickCore cosq sinq s).1.lives ≤ 0) :=
    asteroidLoop_inv cosq sinq
      (fun u => u.level = s.level ∧
        (u.gameOver = true → u.ship.alive = false ∧ u.lives ≤ 0))
      hstep (List.range (preTick s).asteroids.length) (preTick s, 0) hpre
  by_cases hc : (tickCore cosq sinq s).2 = 0 ∧ (tickCore cosq sinq s).1.gameOver = false
  · exfalso
    have he : update_game cosq sinq fuel s = setup_level cosq sinq fuel
        { (tickCore cosq sinq s).1 with level := (tickCore cosq sinq s).1.level + 1 } := by
      unfold update_game
      rw [if_pos hc]
    rw [he] at h1
    have hg := (setup_level_fields cosq sinq fuel
      { (tickCore cosq sinq s).1 with level := (tickCore cosq sinq s).1.level + 1 }).2.2.2.2
    rw [hg] at h1
    have h2 : (tickCore cosq sinq s).1.gameOver = true := h1
    rw [hc.2] at h2
    cases h2
  · have he : update_game cosq sinq fuel s = (tickCore cosq sinq s).1 := by
      unfold update_game
      rw [if_neg hc]
    rw [he] at h1 ⊢
    obtain ⟨hd, hlv⟩ := hr.2 h1
    exact ⟨hd, hlv, hr.1, fun step n => mainLoop_gameOver step _ h1 n⟩

set_option maxRecDepth 8000 in
/-- Witness for C6: the lethal tick from stateE (one life, asteroid on
the unshielded ship). -/
theorem game_over_is_terminal_check :
    stateE.gameOver = false ∧
    ((update_game czero czero 1 stateE).ship.alive = false ∧
     (update_game czero czero 1 stateE).lives ≤ 0 ∧
     (update_game czero czero 1 stateE).level = stateE.level ∧
     mainLoop (update_game czero czero 1) 5 (update_game czero czero 1 stateE)
       = update_game czero czero 1 stateE) :=
  ⟨rfl, by
    have h := game_over_is_terminal czero czero 1 stateE rfl (by with_unfolding_all rfl)
    exact ⟨h.1, h.2.1, h.2.2.1, h.2.2.2 (update_game czero czero 1) 5⟩⟩

/-- C10: at most one life is lost per tick of update_game, from any
state: after the first registered ship-asteroid hit the ship is either
dead with the game over, or respawned with invincibility 180, so every
later asteroid in the same tick fails the collision guard. -/
theorem at_most_one_life_lost_per_tick (cosq sinq : ℚ → ℚ) (fuel : Nat)
    (s : GameState) :
    s.lives - 1 ≤ (update_game cosq sinq fuel s).lives := by
  have hstep : ∀ (i : Nat) (sc : GameState × Nat),
      (s.lives - 1 ≤ sc.1.lives ∧
       (sc.1.lives < s.lives →
         sc.1.ship.alive = false ∨ 0 < sc.1.ship.invincibleTimer)) →
      (s.lives - 1 ≤ (updateAsteroidStep cosq sinq i sc).1.lives ∧
       ((updateAsteroidStep cosq sinq i sc).1.lives < s.lives →
         (updateAsteroidStep cosq sinq i sc).1.ship.alive = false ∨
         0 < (updateAsteroidStep cosq sinq i sc).1.ship.invincibleTimer)) := by
    intro i sc h
    obtain ⟨h1, h2⟩ := h
    unfold updateAsteroidStep
    split
    · dsimp only
      obtain ⟨hp1, hp2, -, -, -, -⟩ := hitPhase_fields cosq sinq i sc.1
      rcases shipCollide_cases i (hitPhase cosq sinq i sc.1) with heq |
        ⟨halive, htimer, ⟨hl0, heq⟩ | ⟨hl0, heq⟩⟩
      · rw [heq, hp1, hp2]
        exact ⟨h1, h2⟩
      · have hsl : ¬(sc.1.lives < s.lives) := by
          intro hlt
          rcases h2 hlt with hdead | hpos
          · rw [hp1] at halive
            rw [halive] at hdead
            simp at hdead
          · rw [hp1] at htimer
            omega
        rw [heq]
        constructor
        · show s.lives - 1 ≤ (hitPhase cosq sinq i sc.1).lives - 1
          rw [hp2]
          omega
        · intro _
          exact Or.inl rfl
      · have hsl : ¬(sc.1.lives < s.lives) := by
          intro hlt
          rcases h2 hlt with hdead | hpos
          · rw [hp1] at halive
            rw [halive] at hdead
            simp at hdead
          · rw [hp1] at htimer
            omega
        rw [heq]
        constructor
        · show s.lives - 1 ≤ (hitPhase cosq sinq i sc.1).lives - 1
          rw [hp2]
          omega
        · intro _
          exact Or.inr (show (0 : Int) < 180 by norm_num)
    · exact ⟨h1, h2⟩
  have hpre : s.lives - 1 ≤ (preTick s).lives ∧
      ((preTick s).lives < s.lives →
        (preTick s).ship.alive = false ∨ 0 < (preTick s).ship.invincibleTimer) := by
    constructor
    · show s.lives - 1 ≤ s.lives
      omega
    · intro h
      have h2 : s.lives < s.lives := h
      omega
  have hr : s.lives - 1 ≤ (tickCore cosq sinq s).1.lives :=
    (asteroidLoop_inv cosq sinq
      (fun u => s.lives - 1 ≤ u.lives ∧
        (u.lives < s.lives → u.ship.alive = false ∨ 0 < u.ship.invincibleTimer))
      hstep (List.range (preTick s).asteroids.length) (preTick s, 0) hpre).1
  by_cases hc : (tickCore cosq sinq s).2 = 0 ∧ (tickCore cosq sinq s).1.gameOver = false
  · have he : update_game cosq sinq fuel s = setup_level cosq sinq fuel
        { (tickCore cosq sinq s).1 with level := (tickCore cosq sinq s).1.level + 1 } := by
      unfold update_game
      rw [if_pos hc]
    rw [he]
    rw [(setup_level_fields cosq sinq fuel
      { (tickCore cosq sinq s).1 with level := (tickCore cosq sinq s).1.level + 1 }).2.2.1]
    exact hr
  · have he : update_game cosq sinq fuel s = (tickCore cosq sinq s).1 := by
      unfold update_game
      rw [if_neg hc]
    rw [he]
    exact hr

/-- If the candidate generated at cursor k is acceptable, the rejection
loop returns it immediately (with any positive fuel). -/
theorem pickLevelPos_first (rnd : Nat → Nat) (fuel k : Nat) (hfuel : 0 < fuel)
    (hok : candOK rnd k) :
    pickLevelPos rnd 400 300 fuel k = some (levelCandidate rnd k) := by
  cases fuel with
  | zero => omega
  | succ m =>
    unfold pickLevelPos
    dsimp only
    have hcond : ¬(hypotLt ((levelCandidate rnd k).1 - 400)
        ((levelCandidate rnd k).2.1 - 300) 200 = true) := by
      rw [candOK] at hok
      rw [hok]
      simp
    rw [if_neg hcond]

/-- Invariant of the setup_level spawn loop: when every rand candidate is
acceptable, n spawns into a 50-slot pool centered on the reset ship add
exactly n alive size-3 asteroids, all at least 200 units from (400, 300),
and leave the ship and the bullet pool untouched. -/
theorem spawnLoop_spec (cosq sinq : ℚ → ℚ) (fuel : Nat) (hfuel : 0 < fuel) :
    ∀ (n : Nat) (s : GameState),
      s.ship.x = 400 → s.ship.y = 300 →
      (∀ k, candOK s.rnd k) →
      s.asteroids.length = 50 →
      aliveCount s.asteroids + n ≤ 50 →
      (∀ a ∈ s.asteroids, a.alive = true →
        a.size = 3 ∧ hypotLt (a.x - 400) (a.y - 300) 200 = false) →
      (spawnLoop cosq sinq fuel n s).ship = s.ship ∧
      (spawnLoop cosq sinq fuel n s).bullets = s.bullets ∧
      aliveCount (spawnLoop cosq sinq fuel n s).asteroids
        = aliveCount s.asteroids + n ∧
      (∀ a ∈ (spawnLoop cosq sinq fuel n s).asteroids, a.alive = true →
        a.size = 3 ∧ hypotLt (a.x - 400) (a.y - 300) 200 = false) := by
  intro n
  induction n with
  | zero =>
    intro s _ _ _ _ _ hP
    exact ⟨rfl, rfl, rfl, hP⟩
  | succ m ih =>
    intro s hsx hsy hrand hlen hcount hP
    have hcnt : aliveCount s.asteroids < s.asteroids.length := by
      rw [hlen]
      omega
    obtain ⟨i, hfi, hilt, hidead⟩ := firstFreeIdx_of_count s.asteroids hcnt
    have hspawn : spawn_asteroid cosq sinq (levelCandidate s.rnd s.rndIdx).1
        (levelCandidate s.rnd s.rndIdx).2.1 3
        { s with rndIdx := (levelCandidate s.rnd s.rndIdx).2.2 }
        = { s with
            asteroids := s.asteroids.set i
              (newAsteroid cosq sinq s.rnd (levelCandidate s.rnd s.rndIdx).2.2
                (levelCandidate s.rnd s.rndIdx).1
                (levelCandidate s.rnd s.rndIdx).2.1 3),
            rndIdx := (levelCandidate s.rnd s.rndIdx).2.2 + 4 +
              (newAsteroid cosq sinq s.rnd (levelCandidate s.rnd s.rndIdx).2.2
                (levelCandidate s.rnd s.rndIdx).1
                (levelCandidate s.rnd s.rndIdx).2.1 3).numVertices } := by
      unfold spawn_asteroid
      rw [if_neg (by omega)]
      dsimp only
      rw [hfi]
    have hloop : spawnLoop cosq sinq fuel (m + 1) s
        = spawnLoop cosq sinq fuel m
            (spawn_asteroid cosq sinq (levelCandidate s.rnd s.rndIdx).1
              (levelCandidate s.rnd s.rndIdx).2.1 3
              { s with rndIdx := (levelCandidate s.rnd s.rndIdx).2.2 }) := by
      conv_lhs => unfold spawnLoop
      rw [hsx, hsy, pickLevelPos_first s.rnd fuel s.rndIdx hfuel (hrand s.rndIdx)]
    rw [hloop, hspawn]
    have hnew : (newAsteroid cosq sinq s.rnd (levelCandidate s.rnd s.rndIdx).2.2
        (levelCandidate s.rnd s.rndIdx).1 (levelCandidate s.rnd s.rndIdx).2.1 3).alive
        = true := rfl
    have hkey := ih
      { s with
        asteroids := s.asteroids.set i
          (newAsteroid cosq sinq s.rnd (levelCandidate s.rnd s.rndIdx).2.2
            (levelCandidate s.rnd s.rndIdx).1
            (levelCandidate s.rnd s.rndIdx).2.1 3),
        rndIdx := (levelCandidate s.rnd s.rndIdx).2.2 + 4 +
          (newAsteroid cosq sinq s.rnd (levelCandidate s.rnd s.rndIdx).2.2
            (levelCandidate s.rnd s.rndIdx).1
            (levelCandidate s.rnd s.rndIdx).2.1 3).numVertices }
      hsx hsy hrand
      (by
        show (s.asteroids.set i _).length = 50
        rw [List.length_set, hlen])
      (by
        show aliveCount (s.asteroids.set i _) + m ≤ 50
        rw [aliveCount_set s.asteroids i hilt hidead _ hnew]
        omega)
      (by
        intro a ha halive
        rcases List.mem_or_eq_of_mem_set ha with hmem | han
        · exact hP a hmem halive
        · rw [han]
          refine ⟨rfl, ?_⟩
          exact hrand s.rndIdx)
    obtain ⟨k1, k2, k3, k4⟩ := hkey
    refine ⟨k1, k2, ?_, k4⟩
    rw [k3]
    show aliveCount (s.asteroids.set i _) + m = aliveCount s.asteroids + (m + 1)
    rw [aliveCount_set s.asteroids i hilt hidead _ hnew]
    omega

/-- C8: setup_level resets the ship to the center state (position
(400, 300), zero velocity, heading -90 degrees, alive, invincibility
timer 180), deactivates every bullet slot, and (with level + 3 within the
50-slot capacity and every rand candidate acceptable) ends with exactly
level + 3 alive asteroids, each of size 3 and each at least 200 units
from the reset ship position. -/
theorem setup_level_resets_and_spawns (cosq sinq : ℚ → ℚ) (fuel : Nat)
    (s : GameState)
    (hfuel : 0 < fuel)
    (hrand : ∀ k, candOK s.rnd k)
    (hlen : s.asteroids.length = 50)
    (hlvl0 : 0 ≤ s.level)
    (hlvl : s.level + 3 ≤ 50) :
    (setup_level cosq sinq fuel s).ship = resetShip ∧
    (∀ b ∈ (setup_level cosq sinq fuel s).bullets, b.active = false) ∧
    aliveCount (setup_level cosq sinq fuel s).asteroids = (s.level + 3).toNat ∧
    (∀ a ∈ (setup_level cosq sinq fuel s).asteroids, a.alive = true →
      a.size = 3 ∧ hypotLt (a.x - 400) (a.y - 300) 200 = false) := by
  have h0 : aliveCount (clearedState s).asteroids = 0 := by
    apply List.countP_eq_zero.mpr
    intro a ha
    obtain ⟨b, hb, hba⟩ := List.mem_map.mp ha
    rw [← hba]
    simp
  have key := spawnLoop_spec cosq sinq fuel hfuel (s.level + 3).toNat
    (clearedState s) rfl rfl hrand
    (by
      show (s.asteroids.map _).length = 50
      rw [List.length_map, hlen])
    (by
      rw [h0]
      omega)
    (by
      intro a ha halive
      obtain ⟨b, hb, hba⟩ := List.mem_map.mp ha
      rw [← hba] at halive
      simp at halive)
  have hdef : setup_level cosq sinq fuel s
      = spawnLoop cosq sinq fuel (s.level + 3).toNat (clearedState s) := rfl
  rw [hdef]
  refine ⟨?_, ?_, ?_, key.2.2.2⟩
  · rw [key.1]
    rfl
  · rw [key.2.1]
    intro b hb
    obtain ⟨b0, hb0, hbb⟩ := List.mem_map.mp hb
    rw [← hbb]
  · rw [key.2.2.1, h0]
    omega

/-- On the all-zero rand stream every setup_level candidate is the
off-screen point (-80, 0). -/
theorem levelCandidate_rzero (k : Nat) :
    levelCandidate rzero k = (-80, 0, k + 3) := by
  unfold levelCandidate rzero
  norm_num

set_option maxRecDepth 8000 in
/-- On the all-zero rand stream every setup_level candidate is acceptable
(it is far from the reset ship position). -/
theorem candOK_rzero : ∀ k, candOK rzero k := by
  intro k
  unfold candOK
  rw [levelCandidate_rzero]
  dsimp only
  with_unfolding_all rfl

/-- Witness for C8: stateW (level 1, empty pools, the all-zero rand
stream whose every candidate lands at (-80, 0), far from the ship). -/
theorem setup_level_resets_and_spawns_check :
    stateW.asteroids.length = 50 ∧ (0 : Int) ≤ stateW.level ∧
    stateW.level + 3 ≤ 50 ∧
    ((setup_level czero czero 1 stateW).ship = resetShip ∧
     (∀ b ∈ (setup_level czero czero 1 stateW).bullets, b.active = false) ∧
     aliveCount (setup_level czero czero 1 stateW).asteroids
       = (stateW.level + 3).toNat ∧
     (∀ a ∈ (setup_level czero czero 1 stateW).asteroids, a.alive = true →
       a.size = 3 ∧ hypotLt (a.x - 400) (a.y - 300) 200 = false)) :=
  ⟨by decide, by decide, by decide,
   setup_level_resets_and_spawns czero czero 1 stateW (by decide)
     candOK_rzero (by decide) (by decide) (by decide)⟩
